import Mathlib

/-!
# Verification of the Unsaid spaCy annotation service

A shallow embedding of `src/spacy-service/app.py` (FastAPI + pydantic +
spaCy).  The external spaCy pipeline is modelled abstractly as a function
`String → Doc`; everything the handler reads from the pipeline's output
(token text, lemma, part-of-speech tag, head index, dependency label,
sentence character spans, and the `has_annotation("SENT_START")` flag) is a
field of `Doc`/`SpacyToken`.  The handler itself (`process`, lines 29–48 of
`app.py`) and the pydantic validation of `ProcessBody` (lines 19–23) are
translated faithfully, including Python truthiness of strings and of
`Optional[bool]` fields.
-/

namespace SpacyService

/-- A token as produced by the spaCy pipeline.  `head` is the index (`.i`)
of the governing token, or `none` when the token has no governing head
(the Python code reads `t.head.i if t.head is not None else None`). -/
structure SpacyToken where
  text : String
  lemma_ : String
  pos_ : String
  head : Option Nat
  dep_ : String
deriving Repr, DecidableEq

/-- A sentence span from `doc.sents`, with character offsets. -/
structure SpacySent where
  start_char : Nat
  end_char : Nat
deriving Repr, DecidableEq

/-- The parsed document returned by the pipeline: its tokens in order, its
sentence spans, and whether it carries the `SENT_START` annotation
(`doc.has_annotation("SENT_START")`). -/
structure Doc where
  toks : List SpacyToken
  sents : List SpacySent
  hasSentStart : Bool
deriving Repr, DecidableEq

/-- Python truthiness of a string: non-empty strings are truthy.
`a or b` on strings is `if a = "" then b else a`. -/
def pyOrStr (a b : String) : String :=
  if a = "" then b else a

/-- Python truthiness of an `Optional[bool]` value: `None` and `False` are
falsy, only `True` is truthy (used by `if body.wantTokens` etc.). -/
def truthy : Option Bool → Bool
  | some true => true
  | _ => false

/-- Embedding of Python `str.lower()` (ASCII case mapping, the range the
pipeline's tags use). -/
def pyLower (s : String) : String :=
  ⟨s.data.map Char.toLower⟩

/-- Embedding of Python `str.upper()` (ASCII case mapping). -/
def pyUpper (s : String) : String :=
  ⟨s.data.map Char.toUpper⟩

/-- The validated request body (`class ProcessBody(BaseModel)`):
`text: str` (required), the three flags `Optional[bool] = True`, so after
validation each flag is `none` (explicit JSON `null`) or `some b`. -/
structure ProcessBody where
  text : String
  wantTokens : Option Bool := some true
  wantSents : Option Bool := some true
  wantDeps : Option Bool := some true
deriving Repr, DecidableEq

/-- A raw JSON request body restricted to the fields `ProcessBody`
declares: for each field, `none` means the key is absent, `some none`
means an explicit JSON `null`, and `some (some v)` a value of the declared
type. -/
structure RawBody where
  text : Option (Option String)
  wantTokens : Option (Option Bool)
  wantSents : Option (Option Bool)
  wantDeps : Option (Option Bool)
deriving Repr, DecidableEq

/-- Pydantic validation of `ProcessBody`: `text : str` is required and not
nullable, so an absent or `null` `text` is rejected with a client error
before the handler runs; each `Optional[bool] = True` flag defaults to
`True` when absent and accepts an explicit `null`. -/
def validateBody (rb : RawBody) : Except String ProcessBody :=
  match rb.text with
  | none => Except.error "text: field required"
  | some none => Except.error "text: none is not an allowed value"
  | some (some t) =>
    Except.ok
      { text := t
        wantTokens := match rb.wantTokens with
          | none => some true
          | some v => v
        wantSents := match rb.wantSents with
          | none => some true
          | some v => v
        wantDeps := match rb.wantDeps with
          | none => some true
          | some v => v }

/-- A Token Record of the response (line 35 of `app.py`). -/
structure TokenRec where
  text : String
  «lemma» : String
  pos : String
  i : Nat
deriving Repr, DecidableEq

/-- A Sentence Span of the response (line 37 of `app.py`). -/
structure SentSpan where
  start : Nat
  «end» : Nat
deriving Repr, DecidableEq

/-- A Dependency Edge of the response (line 38 of `app.py`). -/
structure DepEdge where
  i : Nat
  head : Option Nat
  dep : String
deriving Repr, DecidableEq

/-- The `sarcasm` placeholder object; its score `0.0` is modelled as the
rational 0. -/
structure Sarcasm where
  present : Bool
  score : Rat
deriving Repr, DecidableEq

/-- The `context` placeholder object; its score `0.1` is modelled as the
rational 1/10. -/
structure ContextInfo where
  label : String
  score : Rat
deriving Repr, DecidableEq

/-- The `phraseEdges` placeholder object. -/
structure PhraseEdges where
  hits : List String
deriving Repr, DecidableEq

/-- The successful response of the `/process` endpoint (lines 41–48). -/
structure ProcessResponse where
  tokens : List TokenRec
  sents : List SentSpan
  deps : List DepEdge
  sarcasm : Sarcasm
  context : ContextInfo
  phraseEdges : PhraseEdges
deriving Repr, DecidableEq

/-- `raise HTTPException(status_code=..., detail=...)`. -/
structure HTTPException where
  status_code : Nat
  detail : String
deriving Repr, DecidableEq

/-- Lines 34–48 of `app.py`: the processing performed once authorization
has passed.  `nlp` is the pipeline instance. -/
def processCore (nlp : String → Doc) (body : ProcessBody) : ProcessResponse :=
  let doc := nlp (pyOrStr body.text "")
  let tokens :=
    if truthy body.wantTokens then
      doc.toks.enum.map (fun p =>
        { text := p.2.text
          «lemma» := pyLower (pyOrStr p.2.lemma_ p.2.text)
          pos := pyUpper (pyOrStr p.2.pos_ "X")
          i := p.1 })
    else []
  let sents :=
    if truthy body.wantSents && doc.hasSentStart then
      doc.sents.map (fun s => { start := s.start_char, «end» := s.end_char })
    else if truthy body.wantSents then
      [{ start := 0, «end» := (pyOrStr body.text "").length }]
    else []
  let deps :=
    if truthy body.wantDeps then
      doc.toks.enum.map (fun p =>
        { i := p.1
          head := p.2.head
          dep := p.2.dep_ })
    else []
  { tokens := tokens
    sents := sents
    deps := deps
    sarcasm := { present := false, score := 0 }
    context := { label := "general", score := 1/10 }
    phraseEdges := { hits := [] } }

/-- The `/process` handler (lines 29–48): `INTERNAL_KEY` is the configured
shared secret (`""` when unset), `xInternalKey` is
`req.headers.get("x-internal-key")`.  When a non-empty secret is configured
and the header does not match, the handler raises a 401 before touching the
pipeline. -/
def process (nlp : String → Doc) (INTERNAL_KEY : String)
    (xInternalKey : Option String) (body : ProcessBody) :
    Except HTTPException ProcessResponse :=
  if INTERNAL_KEY ≠ "" ∧ xInternalKey ≠ some INTERNAL_KEY then
    Except.error { status_code := 401, detail := "unauthorized" }
  else
    Except.ok (processCore nlp body)

/-! ## Helper definitions and lemmas -/

/-- `s` contains no ASCII uppercase letter (the sense in which a string
produced by `str.lower()` is lowercase). -/
def noAsciiUpper (s : String) : Bool :=
  s.data.all (fun c => !c.isUpper)

/-- `s` contains no ASCII lowercase letter (the sense in which a string
produced by `str.upper()` is uppercase). -/
def noAsciiLower (s : String) : Bool :=
  s.data.all (fun c => !c.isLower)

theorem toNat_ofNat_valid (n : Nat) (h : n.isValidChar) :
    (Char.ofNat n).toNat = n := by
  unfold Char.ofNat
  rw [dif_pos h]
  rfl

theorem isUpper_toLower (c : Char) : (Char.toLower c).isUpper = false := by
  unfold Char.toLower
  by_cases h : c.toNat ≥ 65 ∧ c.toNat ≤ 90
  · simp only [if_pos h]
    have ht : (Char.ofNat (c.toNat + 32)).val.toBitVec.toNat = c.toNat + 32 :=
      toNat_ofNat_valid _ (Or.inl (by omega))
    simp only [Char.isUpper]
    rw [Bool.and_eq_false_iff]
    right
    simp only [decide_eq_false_iff_not]
    rw [UInt32.le_def, BitVec.le_def]
    have h90 : (90 : UInt32).toBitVec.toNat = 90 := rfl
    omega
  · simp only [if_neg h]
    simp only [Char.isUpper]
    rw [Bool.and_eq_false_iff]
    rw [Decidable.not_and_iff_or_not] at h
    simp only [decide_eq_false_iff_not]
    rcases h with h | h
    · left
      rw [ge_iff_le, UInt32.le_def, BitVec.le_def]
      simp only [Char.toNat, ge_iff_le, not_le] at h
      have h65 : (65 : UInt32).toBitVec.toNat = 65 := rfl
      have hc : c.val.toNat = c.val.toBitVec.toNat := rfl
      omega
    · right
      rw [UInt32.le_def, BitVec.le_def]
      simp only [Char.toNat, not_le] at h
      have h90 : (90 : UInt32).toBitVec.toNat = 90 := rfl
      have hc : c.val.toNat = c.val.toBitVec.toNat := rfl
      omega

theorem isLower_toUpper (c : Char) : (Char.toUpper c).isLower = false := by
  unfold Char.toUpper
  by_cases h : c.toNat ≥ 97 ∧ c.toNat ≤ 122
  · simp only [if_pos h]
    have ht : (Char.ofNat (c.toNat - 32)).val.toBitVec.toNat = c.toNat - 32 :=
      toNat_ofNat_valid _ (Or.inl (by omega))
    simp only [Char.isLower]
    rw [Bool.and_eq_false_iff]
    left
    simp only [decide_eq_false_iff_not]
    rw [ge_iff_le, UInt32.le_def, BitVec.le_def]
    have h97 : (97 : UInt32).toBitVec.toNat = 97 := rfl
    omega
  · simp only [if_neg h]
    simp only [Char.isLower]
    rw [Bool.and_eq_false_iff]
    rw [Decidable.not_and_iff_or_not] at h
    simp only [decide_eq_false_iff_not]
    rcases h with h | h
    · left
      rw [ge_iff_le, UInt32.le_def, BitVec.le_def]
      simp only [Char.toNat, ge_iff_le, not_le] at h
      have h97 : (97 : UInt32).toBitVec.toNat = 97 := rfl
      have hc : c.val.toNat = c.val.toBitVec.toNat := rfl
      omega
    · right
      rw [UInt32.le_def, BitVec.le_def]
      simp only [Char.toNat, not_le] at h
      have h122 : (122 : UInt32).toBitVec.toNat = 122 := rfl
      have hc : c.val.toNat = c.val.toBitVec.toNat := rfl
      omega

theorem noAsciiUpper_pyLower (s : String) : noAsciiUpper (pyLower s) = true := by
  unfold noAsciiUpper pyLower
  simp only [List.all_eq_true, List.mem_map]
  rintro c ⟨d, _, rfl⟩
  simp [isUpper_toLower]

theorem noAsciiLower_pyUpper (s : String) : noAsciiLower (pyUpper s) = true := by
  unfold noAsciiLower pyUpper
  simp only [List.all_eq_true, List.mem_map]
  rintro c ⟨d, _, rfl⟩
  simp [isLower_toUpper]

theorem pyOrStr_empty_right (t : String) : pyOrStr t "" = t := by
  unfold pyOrStr
  split
  · simp_all
  · rfl

/-- A successful `process` call returns exactly `processCore` of the body. -/
theorem process_ok_iff {nlp : String → Doc} {secret : String}
    {key : Option String} {body : ProcessBody} {resp : ProcessResponse}
    (hok : process nlp secret key body = Except.ok resp) :
    resp = processCore nlp body := by
  unfold process at hok
  split at hok
  · exact absurd hok (by simp)
  · simpa using hok.symm

/-- A concrete document used to instantiate theorems: two tokens, the
second of which has an empty lemma, empty tag, no head and empty
dependency label (as the degraded pipeline produces). -/
def demoDoc : Doc :=
  { toks := [
      { text := "Hello", lemma_ := "Hello", pos_ := "intj",
        head := some 1, dep_ := "intj" },
      { text := "World", lemma_ := "", pos_ := "", head := none, dep_ := "" }],
    sents := [{ start_char := 0, end_char := 11 }],
    hasSentStart := true }

/-- A concrete pipeline returning `demoDoc` for every text. -/
def demoNlp : String → Doc := fun _ => demoDoc

/-- A concrete degraded pipeline: no tokens, no sentence annotation. -/
def degradedNlp : String → Doc :=
  fun _ => { toks := [], sents := [], hasSentStart := false }

/-! ## Claims -/

/-- C1: when a non-empty shared secret is configured and the
`x-internal-key` header is missing or differs from it, `process` fails with
a 401 `HTTPException` whose detail is the fixed string "unauthorized", and
the outcome is independent of the pipeline (no parse is run and no
tokens/sents/deps are computed); when the header equals the secret,
processing proceeds normally, returning `processCore` of the body. -/
theorem process_auth_gate (nlp nlp' : String → Doc) (secret : String)
    (key : Option String) (body : ProcessBody) (hs : secret ≠ "") :
    (key ≠ some secret →
      process nlp secret key body =
        Except.error { status_code := 401, detail := "unauthorized" } ∧
      process nlp secret key body = process nlp' secret key body) ∧
    (key = some secret →
      process nlp secret key body = Except.ok (processCore nlp body)) := by
  constructor
  · intro hk
    constructor
    · unfold process
      rw [if_pos ⟨hs, hk⟩]
    · unfold process
      rw [if_pos ⟨hs, hk⟩, if_pos ⟨hs, hk⟩]
  · intro hk
    unfold process
    rw [if_neg (by simp [hk])]

theorem process_auth_gate_witness :
    (process demoNlp "s3cret" none { text := "hi" } =
      Except.error { status_code := 401, detail := "unauthorized" } ∧
     process demoNlp "s3cret" none { text := "hi" } =
      process degradedNlp "s3cret" none { text := "hi" }) ∧
    process demoNlp "s3cret" (some "s3cret") { text := "hi" } =
      Except.ok (processCore demoNlp { text := "hi" }) :=
  ⟨(process_auth_gate demoNlp degradedNlp "s3cret" none { text := "hi" }
      (by decide)).1 (by decide),
   (process_auth_gate demoNlp demoNlp "s3cret" (some "s3cret") { text := "hi" }
      (by decide)).2 rfl⟩

/-- C2 counterexample: a request body with `text` absent is rejected by the
validation layer (`text : str` is a required, non-nullable pydantic field),
so the service does not treat it as the empty string and does not return a
normal response. -/
theorem validateBody_missing_text_rejected :
    validateBody { text := none, wantTokens := none,
                   wantSents := none, wantDeps := none } =
      Except.error "text: field required" := rfl

/-- C2 (amended): any raw body in which `text` is absent is rejected by the
validation layer with a "field required" client error before the handler
runs; only bodies carrying a string `text` reach `process`, where an empty
string is processed as empty text. -/
theorem validateBody_missing_text_errors (rb : RawBody) (h : rb.text = none) :
    validateBody rb = Except.error "text: field required" := by
  unfold validateBody
  rw [h]

theorem validateBody_missing_text_errors_witness :
    validateBody { text := none, wantTokens := some (some true),
                   wantSents := some none, wantDeps := none } =
      Except.error "text: field required" :=
  validateBody_missing_text_errors _ rfl

/-- C8: when the configured shared secret is the empty string (the value
`os.getenv` yields when the variable is unset or empty), the result of
`process` is independent of the presence and value of the `x-internal-key`
header: authorization is skipped entirely. -/
theorem process_no_secret_header_irrelevant (nlp : String → Doc)
    (k1 k2 : Option String) (body : ProcessBody) :
    process nlp "" k1 body = process nlp "" k2 body := by
  unfold process
  rw [if_neg (by simp), if_neg (by simp)]

/-- C3: on an authorized request with truthy `wantTokens` and `wantDeps`,
the response carries exactly one Token Record and one Dependency Edge per
pipeline token, and the `i` fields of both sequences are `0, 1, ..., n-1`
in order, where `n` is the number of tokens the pipeline produced. -/
theorem tokens_deps_indices (nlp : String → Doc) (secret : String)
    (key : Option String) (body : ProcessBody) (resp : ProcessResponse)
    (hT : truthy body.wantTokens = true) (hD : truthy body.wantDeps = true)
    (hok : process nlp secret key body = Except.ok resp) :
    resp.tokens.length = (nlp (pyOrStr body.text "")).toks.length ∧
    resp.deps.length = (nlp (pyOrStr body.text "")).toks.length ∧
    (∀ k (h : k < resp.tokens.length), (resp.tokens.get ⟨k, h⟩).i = k) ∧
    (∀ k (h : k < resp.deps.length), (resp.deps.get ⟨k, h⟩).i = k) := by
  have hr := process_ok_iff hok
  subst hr
  unfold processCore
  simp only [hT, hD, if_true]
  refine ⟨by simp [List.enum_length], by simp [List.enum_length], ?_, ?_⟩
  · intro k h
    simp [hT, List.get_eq_getElem, List.getElem_map, List.getElem_enum]
  · intro k h
    simp [hD, List.get_eq_getElem, List.getElem_map, List.getElem_enum]

theorem tokens_deps_indices_witness :
    truthy (ProcessBody.mk "hi" (some true) (some true) (some true)).wantTokens = true ∧
    truthy (ProcessBody.mk "hi" (some true) (some true) (some true)).wantDeps = true ∧
    process demoNlp "" none (ProcessBody.mk "hi" (some true) (some true) (some true)) =
      Except.ok (processCore demoNlp (ProcessBody.mk "hi" (some true) (some true) (some true))) ∧
    ((processCore demoNlp (ProcessBody.mk "hi" (some true) (some true) (some true))).tokens.length =
      (demoNlp (pyOrStr "hi" "")).toks.length ∧
     (processCore demoNlp (ProcessBody.mk "hi" (some true) (some true) (some true))).deps.length =
      (demoNlp (pyOrStr "hi" "")).toks.length ∧
     (∀ k (h : k < (processCore demoNlp (ProcessBody.mk "hi" (some true) (some true) (some true))).tokens.length),
        ((processCore demoNlp (ProcessBody.mk "hi" (some true) (some true) (some true))).tokens.get ⟨k, h⟩).i = k) ∧
     (∀ k (h : k < (processCore demoNlp (ProcessBody.mk "hi" (some true) (some true) (some true))).deps.length),
        ((processCore demoNlp (ProcessBody.mk "hi" (some true) (some true) (some true))).deps.get ⟨k, h⟩).i = k)) :=
  ⟨rfl, rfl, rfl,
   tokens_deps_indices demoNlp "" none
     (ProcessBody.mk "hi" (some true) (some true) (some true))
     (processCore demoNlp (ProcessBody.mk "hi" (some true) (some true) (some true)))
     rfl rfl rfl⟩

/-- C4: on an authorized request with truthy `wantSents` whose parsed
document carries no sentence-boundary annotation, `sents` is exactly one
span from 0 to the length of the request text; in particular for empty
text it is the single span from 0 to 0. -/
theorem sents_fallback_span (nlp : String → Doc) (secret : String)
    (key : Option String) (body : ProcessBody) (resp : ProcessResponse)
    (hS : truthy body.wantSents = true)
    (hA : (nlp (pyOrStr body.text "")).hasSentStart = false)
    (hok : process nlp secret key body = Except.ok resp) :
    resp.sents = [{ start := 0, «end» := body.text.length }] ∧
    (body.text = "" → resp.sents = [{ start := 0, «end» := 0 }]) := by
  have hr := process_ok_iff hok
  subst hr
  unfold processCore
  rw [pyOrStr_empty_right] at hA
  simp only [pyOrStr_empty_right, hS, hA, Bool.and_false]
  simp only [Bool.false_eq_true, if_false, if_true]
  exact ⟨trivial, fun h => by simp [h]⟩

theorem sents_fallback_span_witness :
    truthy (ProcessBody.mk "" (some true) (some true) (some true)).wantSents = true ∧
    (degradedNlp (pyOrStr "" "")).hasSentStart = false ∧
    process degradedNlp "" none (ProcessBody.mk "" (some true) (some true) (some true)) =
      Except.ok (processCore degradedNlp (ProcessBody.mk "" (some true) (some true) (some true))) ∧
    (processCore degradedNlp (ProcessBody.mk "" (some true) (some true) (some true))).sents =
      [{ start := 0, «end» := 0 }] :=
  ⟨rfl, rfl, rfl,
   ((sents_fallback_span degradedNlp "" none
      (ProcessBody.mk "" (some true) (some true) (some true))
      (processCore degradedNlp (ProcessBody.mk "" (some true) (some true) (some true)))
      rfl rfl rfl).2 rfl)⟩

/-- C5: in every Token Record, `lemma` is a lowercase string (no ASCII
uppercase letters), equal to the lowercased pipeline lemma when that lemma
is non-empty and otherwise to the lowercased raw token text; `pos` is an
uppercase string (no ASCII lowercase letters), equal to the uppercased
pipeline tag when non-empty and otherwise to the literal "X". -/
theorem token_record_fields (nlp : String → Doc) (secret : String)
    (key : Option String) (body : ProcessBody) (resp : ProcessResponse)
    (hT : truthy body.wantTokens = true)
    (hok : process nlp secret key body = Except.ok resp)
    (k : Nat) (hk : k < (nlp (pyOrStr body.text "")).toks.length)
    (t : SpacyToken) (ht : (nlp (pyOrStr body.text "")).toks.get ⟨k, hk⟩ = t) :
    ∃ h : k < resp.tokens.length,
      (resp.tokens.get ⟨k, h⟩).text = t.text ∧
      (t.lemma_ ≠ "" → (resp.tokens.get ⟨k, h⟩).«lemma» = pyLower t.lemma_) ∧
      (t.lemma_ = "" → (resp.tokens.get ⟨k, h⟩).«lemma» = pyLower t.text) ∧
      noAsciiUpper (resp.tokens.get ⟨k, h⟩).«lemma» = true ∧
      (t.pos_ ≠ "" → (resp.tokens.get ⟨k, h⟩).pos = pyUpper t.pos_) ∧
      (t.pos_ = "" → (resp.tokens.get ⟨k, h⟩).pos = "X") ∧
      noAsciiLower (resp.tokens.get ⟨k, h⟩).pos = true := by
  have hr := process_ok_iff hok
  subst hr
  have hx : k < (processCore nlp body).tokens.length := by
    unfold processCore
    simp [hT, List.enum_length, hk]
  refine ⟨hx, ?_⟩
  have hget : (processCore nlp body).tokens.get ⟨k, hx⟩ =
      { text := t.text
        «lemma» := pyLower (pyOrStr t.lemma_ t.text)
        pos := pyUpper (pyOrStr t.pos_ "X")
        i := k } := by
    unfold processCore
    simp only [List.get_eq_getElem] at ht ⊢
    simp [hT, List.getElem_map, List.getElem_enum, ht]
  rw [hget]
  refine ⟨rfl, fun hl => ?_, fun hl => ?_, noAsciiUpper_pyLower _,
    fun hp => ?_, fun hp => ?_, noAsciiLower_pyUpper _⟩
  · simp only [pyOrStr]
    rw [if_neg hl]
  · simp only [pyOrStr]
    rw [if_pos hl]
  · simp only [pyOrStr]
    rw [if_neg hp]
  · simp only [pyOrStr]
    rw [if_pos hp]
    decide

theorem token_record_fields_witness :
    truthy (ProcessBody.mk "hi" (some true) (some true) (some true)).wantTokens = true ∧
    process demoNlp "" none (ProcessBody.mk "hi" (some true) (some true) (some true)) =
      Except.ok (processCore demoNlp (ProcessBody.mk "hi" (some true) (some true) (some true))) ∧
    (1 : Nat) < (demoNlp (pyOrStr "hi" "")).toks.length ∧
    (∃ h : 1 < (processCore demoNlp (ProcessBody.mk "hi" (some true) (some true) (some true))).tokens.length,
      ((processCore demoNlp (ProcessBody.mk "hi" (some true) (some true) (some true))).tokens.get ⟨1, h⟩).text =
        (SpacyToken.mk "World" "" "" none "").text ∧
      ((SpacyToken.mk "World" "" "" none "").lemma_ ≠ "" →
        ((processCore demoNlp (ProcessBody.mk "hi" (some true) (some true) (some true))).tokens.get ⟨1, h⟩).«lemma» =
          pyLower (SpacyToken.mk "World" "" "" none "").lemma_) ∧
      ((SpacyToken.mk "World" "" "" none "").lemma_ = "" →
        ((processCore demoNlp (ProcessBody.mk "hi" (some true) (some true) (some true))).tokens.get ⟨1, h⟩).«lemma» =
          pyLower (SpacyToken.mk "World" "" "" none "").text) ∧
      noAsciiUpper ((processCore demoNlp (ProcessBody.mk "hi" (some true) (some true) (some true))).tokens.get ⟨1, h⟩).«lemma» = true ∧
      ((SpacyToken.mk "World" "" "" none "").pos_ ≠ "" →
        ((processCore demoNlp (ProcessBody.mk "hi" (some true) (some true) (some true))).tokens.get ⟨1, h⟩).pos =
          pyUpper (SpacyToken.mk "World" "" "" none "").pos_) ∧
      ((SpacyToken.mk "World" "" "" none "").pos_ = "" →
        ((processCore demoNlp (ProcessBody.mk "hi" (some true) (some true) (some true))).tokens.get ⟨1, h⟩).pos = "X") ∧
      noAsciiLower ((processCore demoNlp (ProcessBody.mk "hi" (some true) (some true) (some true))).tokens.get ⟨1, h⟩).pos = true) :=
  ⟨rfl, rfl, by decide,
   token_record_fields demoNlp "" none
     (ProcessBody.mk "hi" (some true) (some true) (some true))
     (processCore demoNlp (ProcessBody.mk "hi" (some true) (some true) (some true)))
     rfl rfl 1 (by decide) (SpacyToken.mk "World" "" "" none "") rfl⟩

/-- C6: on an authorized request with truthy `wantDeps`, each Dependency
Edge's `head` field equals the pipeline token's governing-token index, and
it is `null` (`none`) exactly when the token has no governing head. -/
theorem dep_edge_head (nlp : String → Doc) (secret : String)
    (key : Option String) (body : ProcessBody) (resp : ProcessResponse)
    (hD : truthy body.wantDeps = true)
    (hok : process nlp secret key body = Except.ok resp)
    (k : Nat) (hk : k < (nlp (pyOrStr body.text "")).toks.length)
    (t : SpacyToken) (ht : (nlp (pyOrStr body.text "")).toks.get ⟨k, hk⟩ = t) :
    ∃ h : k < resp.deps.length,
      (resp.deps.get ⟨k, h⟩).head = t.head ∧
      ((resp.deps.get ⟨k, h⟩).head = none ↔ t.head = none) := by
  have hr := process_ok_iff hok
  subst hr
  have hx : k < (processCore nlp body).deps.length := by
    unfold processCore
    simp [hD, List.enum_length, hk]
  refine ⟨hx, ?_⟩
  have hget : (processCore nlp body).deps.get ⟨k, hx⟩ =
      { i := k, head := t.head, dep := t.dep_ } := by
    unfold processCore
    simp only [List.get_eq_getElem] at ht ⊢
    simp [hD, List.getElem_map, List.getElem_enum, ht]
  rw [hget]
  exact ⟨rfl, Iff.rfl⟩

theorem dep_edge_head_witness :
    truthy (ProcessBody.mk "hi" (some true) (some true) (some true)).wantDeps = true ∧
    process demoNlp "" none (ProcessBody.mk "hi" (some true) (some true) (some true)) =
      Except.ok (processCore demoNlp (ProcessBody.mk "hi" (some true) (some true) (some true))) ∧
    (1 : Nat) < (demoNlp (pyOrStr "hi" "")).toks.length ∧
    (∃ h : 1 < (processCore demoNlp (ProcessBody.mk "hi" (some true) (some true) (some true))).deps.length,
      ((processCore demoNlp (ProcessBody.mk "hi" (some true) (some true) (some true))).deps.get ⟨1, h⟩).head =
        (SpacyToken.mk "World" "" "" none "").head ∧
      (((processCore demoNlp (ProcessBody.mk "hi" (some true) (some true) (some true))).deps.get ⟨1, h⟩).head = none ↔
        (SpacyToken.mk "World" "" "" none "").head = none)) :=
  ⟨rfl, rfl, by decide,
   dep_edge_head demoNlp "" none
     (ProcessBody.mk "hi" (some true) (some true) (some true))
     (processCore demoNlp (ProcessBody.mk "hi" (some true) (some true) (some true)))
     rfl rfl 1 (by decide) (SpacyToken.mk "World" "" "" none "") rfl⟩

/-- C10: the `dep` field of every Dependency Edge is the pipeline's
relation label passed through verbatim, with no fallback: when the
pipeline supplies an empty label, the response contains the empty string. -/
theorem dep_label_verbatim (nlp : String → Doc) (secret : String)
    (key : Option String) (body : ProcessBody) (resp : ProcessResponse)
    (hD : truthy body.wantDeps = true)
    (hok : process nlp secret key body = Except.ok resp)
    (k : Nat) (hk : k < (nlp (pyOrStr body.text "")).toks.length)
    (t : SpacyToken) (ht : (nlp (pyOrStr body.text "")).toks.get ⟨k, hk⟩ = t) :
    ∃ h : k < resp.deps.length,
      (resp.deps.get ⟨k, h⟩).dep = t.dep_ ∧
      (t.dep_ = "" → (resp.deps.get ⟨k, h⟩).dep = "") := by
  have hr := process_ok_iff hok
  subst hr
  have hx : k < (processCore nlp body).deps.length := by
    unfold processCore
    simp [hD, List.enum_length, hk]
  refine ⟨hx, ?_⟩
  have hget : (processCore nlp body).deps.get ⟨k, hx⟩ =
      { i := k, head := t.head, dep := t.dep_ } := by
    unfold processCore
    simp only [List.get_eq_getElem] at ht ⊢
    simp [hD, List.getElem_map, List.getElem_enum, ht]
  rw [hget]
  exact ⟨rfl, fun he => he⟩

theorem dep_label_verbatim_witness :
    truthy (ProcessBody.mk "hi" (some true) (some true) (some true)).wantDeps = true ∧
    process demoNlp "" none (ProcessBody.mk "hi" (some true) (some true) (some true)) =
      Except.ok (processCore demoNlp (ProcessBody.mk "hi" (some true) (some true) (some true))) ∧
    (1 : Nat) < (demoNlp (pyOrStr "hi" "")).toks.length ∧
    (∃ h : 1 < (processCore demoNlp (ProcessBody.mk "hi" (some true) (some true) (some true))).deps.length,
      ((processCore demoNlp (ProcessBody.mk "hi" (some true) (some true) (some true))).deps.get ⟨1, h⟩).dep =
        (SpacyToken.mk "World" "" "" none "").dep_ ∧
      ((SpacyToken.mk "World" "" "" none "").dep_ = "" →
        ((processCore demoNlp (ProcessBody.mk "hi" (some true) (some true) (some true))).deps.get ⟨1, h⟩).dep = "")) :=
  ⟨rfl, rfl, by decide,
   dep_label_verbatim demoNlp "" none
     (ProcessBody.mk "hi" (some true) (some true) (some true))
     (processCore demoNlp (ProcessBody.mk "hi" (some true) (some true) (some true)))
     rfl rfl 1 (by decide) (SpacyToken.mk "World" "" "" none "") rfl⟩

/-- C7: when all three `want*` flags are `false`, the response's `tokens`,
`sents` and `deps` are all empty; and every successful response, whatever
the flags, carries the constant placeholders
`sarcasm = {present: false, score: 0}`,
`context = {label: "general", score: 1/10}` and `phraseEdges = {hits: []}`. -/
theorem flags_false_empty_and_placeholders (nlp : String → Doc)
    (secret : String) (key : Option String) (body : ProcessBody)
    (resp : ProcessResponse)
    (hok : process nlp secret key body = Except.ok resp) :
    (body.wantTokens = some false ∧ body.wantSents = some false ∧
        body.wantDeps = some false →
      resp.tokens = [] ∧ resp.sents = [] ∧ resp.deps = []) ∧
    resp.sarcasm = { present := false, score := 0 } ∧
    resp.context = { label := "general", score := 1/10 } ∧
    resp.phraseEdges = { hits := [] } := by
  have hr := process_ok_iff hok
  subst hr
  unfold processCore
  refine ⟨?_, rfl, rfl, rfl⟩
  rintro ⟨h1, h2, h3⟩
  simp [h1, h2, h3, truthy]

theorem flags_false_empty_and_placeholders_witness :
    process demoNlp "" none (ProcessBody.mk "hi" (some false) (some false) (some false)) =
      Except.ok (processCore demoNlp (ProcessBody.mk "hi" (some false) (some false) (some false))) ∧
    (((ProcessBody.mk "hi" (some false) (some false) (some false)).wantTokens = some false ∧
      (ProcessBody.mk "hi" (some false) (some false) (some false)).wantSents = some false ∧
      (ProcessBody.mk "hi" (some false) (some false) (some false)).wantDeps = some false →
        (processCore demoNlp (ProcessBody.mk "hi" (some false) (some false) (some false))).tokens = [] ∧
        (processCore demoNlp (ProcessBody.mk "hi" (some false) (some false) (some false))).sents = [] ∧
        (processCore demoNlp (ProcessBody.mk "hi" (some false) (some false) (some false))).deps = []) ∧
     (processCore demoNlp (ProcessBody.mk "hi" (some false) (some false) (some false))).sarcasm =
       { present := false, score := 0 } ∧
     (processCore demoNlp (ProcessBody.mk "hi" (some false) (some false) (some false))).context =
       { label := "general", score := 1/10 } ∧
     (processCore demoNlp (ProcessBody.mk "hi" (some false) (some false) (some false))).phraseEdges =
       { hits := [] }) :=
  ⟨rfl,
   flags_false_empty_and_placeholders demoNlp "" none
     (ProcessBody.mk "hi" (some false) (some false) (some false))
     (processCore demoNlp (ProcessBody.mk "hi" (some false) (some false) (some false)))
     rfl⟩

/-- C9: a `want*` flag explicitly set to JSON `null` validates to `None`,
which is falsy, so the corresponding response sequence is empty — an
explicit `null` behaves as `false`, not as the documented default `true`;
only an absent field takes the default `true`. -/
theorem null_flags_empty (rb : RawBody) (nlp : String → Doc)
    (secret : String) (key : Option String) (pb : ProcessBody)
    (resp : ProcessResponse)
    (hv : validateBody rb = Except.ok pb)
    (hok : process nlp secret key pb = Except.ok resp) :
    (rb.wantTokens = some none → resp.tokens = []) ∧
    (rb.wantSents = some none → resp.sents = []) ∧
    (rb.wantDeps = some none → resp.deps = []) ∧
    (rb.wantTokens = none → pb.wantTokens = some true) ∧
    (rb.wantSents = none → pb.wantSents = some true) ∧
    (rb.wantDeps = none → pb.wantDeps = some true) := by
  have hr := process_ok_iff hok
  subst hr
  unfold validateBody at hv
  match hrb : rb.text with
  | none =>
    rw [hrb] at hv
    exact absurd hv (by simp)
  | some none =>
    rw [hrb] at hv
    exact absurd hv (by simp)
  | some (some s) =>
    rw [hrb] at hv
    simp only [Except.ok.injEq] at hv
    subst hv
    refine ⟨fun h => ?_, fun h => ?_, fun h => ?_,
      fun h => by simp [h], fun h => by simp [h], fun h => by simp [h]⟩
    · unfold processCore
      simp [h, truthy]
    · unfold processCore
      simp [h, truthy]
    · unfold processCore
      simp [h, truthy]

theorem null_flags_empty_witness :
    validateBody (RawBody.mk (some (some "hi")) (some none) (some none) (some none)) =
      Except.ok (ProcessBody.mk "hi" none none none) ∧
    process demoNlp "" none (ProcessBody.mk "hi" none none none) =
      Except.ok (processCore demoNlp (ProcessBody.mk "hi" none none none)) ∧
    (((RawBody.mk (some (some "hi")) (some none) (some none) (some none)).wantTokens = some none →
        (processCore demoNlp (ProcessBody.mk "hi" none none none)).tokens = []) ∧
     ((RawBody.mk (some (some "hi")) (some none) (some none) (some none)).wantSents = some none →
        (processCore demoNlp (ProcessBody.mk "hi" none none none)).sents = []) ∧
     ((RawBody.mk (some (some "hi")) (some none) (some none) (some none)).wantDeps = some none →
        (processCore demoNlp (ProcessBody.mk "hi" none none none)).deps = []) ∧
     ((RawBody.mk (some (some "hi")) (some none) (some none) (some none)).wantTokens = none →
        (ProcessBody.mk "hi" none none none).wantTokens = some true) ∧
     ((RawBody.mk (some (some "hi")) (some none) (some none) (some none)).wantSents = none →
        (ProcessBody.mk "hi" none none none).wantSents = some true) ∧
     ((RawBody.mk (some (some "hi")) (some none) (some none) (some none)).wantDeps = none →
        (ProcessBody.mk "hi" none none none).wantDeps = some true)) :=
  ⟨rfl, rfl,
   null_flags_empty (RawBody.mk (some (some "hi")) (some none) (some none) (some none))
     demoNlp "" none (ProcessBody.mk "hi" none none none)
     (processCore demoNlp (ProcessBody.mk "hi" none none none))
     rfl rfl⟩

end SpacyService
